import Mathlib

/-!
Verification of the taccjm job-manager core against its specification.

The Python class TACCJobManager (src/taccjm/TACCJobManager.py) is shallowly
embedded below.  Remote interaction is made explicit:

* a transport environment is a function from a command string to either a
  transport-level exception (as Except.error) or a CmdOutput record holding
  the bytes read from stdout and stderr and the remote exit status;
* the remote file system reachable over sftp is a RemoteFS value: the listing
  of the jobs directory plus an association list from remote paths to file
  contents, where a json serialisation of a job record is abstracted by the
  record itself and an interrupted write leaves corrupt content (opening a
  file in mode w truncates it, so a dump that dies half way leaves a file
  that no longer parses);
* each raise site of the Python code is tagged with a PyError constructor
  naming the error kind the specification assigns to it (section 7 of the
  spec classifies the generic Python exceptions into kinds: the guard
  raises on invalid state transitions are its ValidationError, exceptions
  coming out of command execution are its CommandFailure, and so on).
  Accidental runtime errors of the Python code (UnboundLocalError,
  NameError, KeyError, TypeError, IndexError) are modelled by their own
  constructors, since several paths of the source reach them.

Python dictionaries are embedded as structures; an Option field value none
stands for the key being absent or bound to None.  Mutation of the shared
job-config dictionary is embedded by returning, next to the Except outcome
of every operation, the final state of the record and of the remote file
system (the Python methods mutate their argument in place even on paths
that raise, and callers keep the alias).
-/

namespace Taccjm

/-- Bytes read from the two streams of one executed command, together with
the remote exit status, as produced by the transport for one command. -/
structure CmdOutput where
  out : String
  err : String
  exit : Int
deriving DecidableEq

/-- A transport environment: what the remote side answers to each command.
Except.error is a transport-level exception raised by exec_command itself. -/
def Transport : Type := String → Except String CmdOutput

/-- Embedding of TACCJobManager._execute_command (lines 75-86): reads all of
stdout and stderr, raises with the stderr text whenever any stderr was
produced, and otherwise returns stdout.  The remote exit status is never
consulted by the source. -/
def execute_command (env : Transport) (cmnd : String) : Except String String :=
  match env cmnd with
  | .error e => .error e
  | .ok r => if 0 < r.err.length then .error r.err else .ok r.out

/-- The lifecycle timestamp block job_config['ts'].  dump_ts is added by
save_job; none models the key being absent or None. -/
structure TsBlock where
  setup_ts : Option String
  submit_ts : Option String
  start_ts : Option String
  end_ts : Option String
  dump_ts : Option String
deriving DecidableEq

/-- The job_config['slurm'] sub-dictionary: slurm_id is written by submit_job
and popped by cancel_job; sbatch_ret is kept only for a failed submission. -/
structure SlurmBlock where
  slurm_id : Option String
  sbatch_ret : Option String
deriving DecidableEq

/-- A job record (the job_config dictionary).  Fields of the source that no
claim mentions (desc, queue, nodeCount, processorsPerNode, maxRunTime, email,
allocation) are resource scalars never read by the lifecycle logic modelled
here and are omitted. -/
structure JobConfig where
  name : String
  appId : String
  job_id : String
  job_dir : Option String
  ts : TsBlock
  slurm : SlurmBlock
  inputs : List (String × String)
  parameters : List (String × String)
deriving DecidableEq

/-- save_job stamps job_config['ts']['dump_ts'] with the current time. -/
def stampDump (cfg : JobConfig) (now : String) : JobConfig :=
  { cfg with ts := { cfg.ts with dump_ts := some now } }

/-- The record invariant of spec section 3: submit_ts only after setup_ts,
and the scheduler identifier present exactly when the job is submitted and
not since cancelled. -/
def recInv (c : JobConfig) : Prop :=
  (c.ts.submit_ts ≠ none → c.ts.setup_ts ≠ none) ∧
  (c.slurm.slurm_id ≠ none ↔ c.ts.submit_ts ≠ none)

instance (c : JobConfig) : Decidable (recInv c) := by
  unfold recInv; infer_instance

/-- Equality of two job records on every field except ts.dump_ts. -/
def sameExceptDump (a b : JobConfig) : Prop :=
  a.name = b.name ∧ a.appId = b.appId ∧ a.job_id = b.job_id ∧
  a.job_dir = b.job_dir ∧ a.slurm = b.slurm ∧ a.inputs = b.inputs ∧
  a.parameters = b.parameters ∧ a.ts.setup_ts = b.ts.setup_ts ∧
  a.ts.submit_ts = b.ts.submit_ts ∧ a.ts.start_ts = b.ts.start_ts ∧
  a.ts.end_ts = b.ts.end_ts

/-- Content of a remote file: a json document holding a job record, or the
corrupt remains of an interrupted write. -/
inductive FileContent where
  | json (cfg : JobConfig)
  | corrupt
deriving DecidableEq

/-- The remote file system as seen through sftp: the listing of the jobs
directory (get_jobs) and the files keyed by path, newest binding first. -/
structure RemoteFS where
  jobs : List String
  files : List (String × FileContent)
deriving DecidableEq

def lookupStr : List (String × FileContent) → String → Option FileContent
  | [], _ => none
  | (k, v) :: rest, p => if k = p then some v else lookupStr rest p

def fsWrite (fs : RemoteFS) (path : String) (c : FileContent) : RemoteFS :=
  { fs with files := (path, c) :: fs.files }

def fsRead (fs : RemoteFS) (path : String) : Option FileContent :=
  lookupStr fs.files path

/-- Error kinds: each constructor tags one family of raise sites of the
source, named by the kind the specification assigns to it (spec section 7),
plus the accidental Python runtime errors the source can reach. -/
inductive PyError where
  | validation (msg : String)
  | commandFailure (msg : String)
  | ioError (msg : String)
  | unboundLocal (name : String)
  | nameError (name : String)
  | keyError (key : String)
  | typeError (msg : String)
  | indexError
deriving DecidableEq

/-- Whether the single sftp write of a save runs to completion or is
interrupted part way. -/
inductive WriteOutcome where
  | complete
  | interrupted
deriving DecidableEq

instance exceptDecEq {ε α : Type} [DecidableEq ε] [DecidableEq α] :
    DecidableEq (Except ε α)
  | .error e, .error f =>
      if h : e = f then .isTrue (h ▸ rfl) else .isFalse (fun he => h (by injection he))
  | .error _, .ok _ => .isFalse (fun h => Except.noConfusion h)
  | .ok _, .error _ => .isFalse (fun h => Except.noConfusion h)
  | .ok a, .ok b =>
      if h : a = b then .isTrue (h ▸ rfl) else .isFalse (fun he => h (by injection he))

/-- Result of save_job: the outcome, the remote file system after the call
and the (mutated) record after the call. -/
structure SaveResult where
  outcome : Except PyError Unit
  fs : RemoteFS
  cfg : JobConfig
deriving DecidableEq

/-- Embedding of TACCJobManager.save_job (lines 297-309): stamps dump_ts,
then opens job_dir/job_config.json in mode w (truncating it) and dumps the
record.  The record is mutated before anything can fail.  A record whose
job_dir is None makes the path concatenation raise TypeError.  There is no
temporary path and no rename: an interrupted dump leaves corrupt content at
the destination. -/
def save_job (fs : RemoteFS) (cfg : JobConfig) (now : String)
    (w : WriteOutcome) : SaveResult :=
  let cfg1 := stampDump cfg now
  match cfg1.job_dir with
  | none => ⟨.error (.typeError "unsupported operand type for str and NoneType"), fs, cfg1⟩
  | some d =>
    let dest := d ++ "/job_config.json"
    match w with
    | .complete => ⟨.ok (), fsWrite fs dest (.json cfg1), cfg1⟩
    | .interrupted => ⟨.error (.ioError "connection lost during write"),
        fsWrite fs dest .corrupt, cfg1⟩

/-- Embedding of TACCJobManager.load_job_config (lines 312-327): checks the
jobs listing (the raise on a missing job spells Exeception, an undefined
name, so Python raises NameError there), then reads and parses
jobs_dir/job_name/job_config.json. -/
def load_job_config (jobsDir : String) (fs : RemoteFS) (job_name : String) :
    Except PyError JobConfig :=
  if job_name ∈ fs.jobs then
    match fsRead fs (jobsDir ++ "/" ++ job_name ++ "/job_config.json") with
    | some (.json cfg) => .ok cfg
    | some .corrupt => .error (.ioError "json decode error")
    | none => .error (.ioError "FileNotFoundError")
  else
    .error (.nameError "Exeception")

/-- Python str.split(sep) on a character list: splitting never yields an
empty list, and an empty input yields one empty segment. -/
def splitOnChar (sep : Char) : List Char → List (List Char)
  | [] => [[]]
  | c :: rest =>
    let r := splitOnChar sep rest
    if c = sep then [] :: r
    else
      match r with
      | [] => [[c]]
      | h :: t => (c :: h) :: t

/-- Python l[-2]: defined only when the list has at least two elements,
otherwise IndexError. -/
def secondToLast : List (List Char) → Option (List Char)
  | [] => none
  | [_] => none
  | [x, _] => some x
  | _ :: rest => secondToLast rest

/-- Python l[-1]: the last element. -/
def lastElem : List (List Char) → Option (List Char)
  | [] => none
  | [x] => some x
  | _ :: rest => lastElem rest

/-- The parse ret.split(chr(10))[-2].split(chr(32))[-1] of the sbatch output
done by submit_job; none is the IndexError Python raises when the output has
no newline at all. -/
def parseSlurmId (ret : String) : Option String :=
  match secondToLast (splitOnChar '\n' ret.data) with
  | none => none
  | some line =>
    match lastElem (splitOnChar ' ' line) with
    | none => none
    | some w => some (String.mk w)

/-- The sbatch invocation submit_job issues; Python str.format renders a
None job_dir as the text None. -/
def submitCmd (cfg : JobConfig) : String :=
  "cd " ++ (cfg.job_dir.getD "None") ++ ";sbatch submit_script.sh"

/-- Result of submit_job or cancel_job: the returned value or raised error,
plus the record and remote file system after the call (the record is
mutated in place by the source, so a raising call can still change it). -/
structure OpResult where
  outcome : Except PyError JobConfig
  cfg : JobConfig
  fs : RemoteFS
deriving DecidableEq

/-- Embedding of TACCJobManager.submit_job (lines 520-542).  The guard
requires setup_ts set and submit_ts unset, else raises (the invalid state
transition kind, ValidationError in the spec taxonomy).  A transport
exception from the sbatch command is caught, but the except clause only
builds Exception(msg) without raising it, so control falls through to the
use of ret, which was never assigned: Python raises UnboundLocalError.
The parsed identifier is stored into slurm_id before being checked against
the failure sentinel, so a sentinel failure raises with the sentinel still
stored and submit_ts still unset.  On success sbatch_ret is popped,
submit_ts stamped and the record persisted. -/
def submit_job (env : Transport) (fs : RemoteFS) (now : String)
    (cfg : JobConfig) (w : WriteOutcome) : OpResult :=
  if cfg.ts.setup_ts ≠ none ∧ cfg.ts.submit_ts = none then
    match execute_command env (submitCmd cfg) with
    | .error _ => ⟨.error (.unboundLocal "ret"), cfg, fs⟩
    | .ok ret =>
      match parseSlurmId ret with
      | none => ⟨.error .indexError, cfg, fs⟩
      | some sid =>
        let cfg1 := { cfg with slurm := { cfg.slurm with slurm_id := some sid } }
        if sid = "FAILED" ∨ sid = "" then
          let cfg2 := { cfg1 with slurm := { cfg1.slurm with sbatch_ret := some ret } }
          ⟨.error (.commandFailure "Failed to submit SLURM Job!"), cfg2, fs⟩
        else
          let cfg2 := { cfg1 with slurm := { cfg1.slurm with sbatch_ret := none } }
          let cfg3 := { cfg2 with ts := { cfg2.ts with submit_ts := some now } }
          let s := save_job fs cfg3 now w
          match s.outcome with
          | .error e => ⟨.error e, s.cfg, s.fs⟩
          | .ok _ => ⟨.ok s.cfg, s.cfg, s.fs⟩
  else
    ⟨.error (.validation "Job has not been initialized or has already been submitted."), cfg, fs⟩

/-- Embedding of TACCJobManager.cancel_job (lines 545-562).  The guard
requires submit_ts set.  Reading slurm_id raises KeyError when the key was
already popped.  A failing scancel propagates out of execute_command with
the record untouched.  On success slurm_id is popped, the whole ts block is
replaced by a fresh all-None dictionary (so dump_ts is dropped too) and the
record persisted (save_job stamps a fresh dump_ts). -/
def cancel_job (env : Transport) (fs : RemoteFS) (now : String)
    (cfg : JobConfig) (w : WriteOutcome) : OpResult :=
  if cfg.ts.submit_ts ≠ none then
    match cfg.slurm.slurm_id with
    | none => ⟨.error (.keyError "slurm_id"), cfg, fs⟩
    | some sid =>
      match execute_command env ("scancel " ++ sid) with
      | .error e => ⟨.error (.commandFailure e), cfg, fs⟩
      | .ok _ =>
        let cfg1 := { cfg with slurm := { cfg.slurm with slurm_id := none } }
        let cfg2 := { cfg1 with ts := ⟨none, none, none, none, none⟩ }
        let s := save_job fs cfg2 now w
        match s.outcome with
        | .error e => ⟨.error e, s.cfg, s.fs⟩
        | .ok _ => ⟨.ok s.cfg, s.cfg, s.fs⟩
  else
    ⟨.error (.validation "Job has not been submitted yet."), cfg, fs⟩

def lowerChars : List Char → List Char
  | [] => []
  | c :: rest => c.toLower :: lowerChars rest

/-- Python str.lower, applied by cleanup_job to the interactive answers. -/
def pyLower (s : String) : String := String.mk (lowerChars s.data)

/-- Result of cleanup_job: the early confirmation returns yield ok none
(the Python method returns None there). -/
structure CleanupResult where
  outcome : Except PyError (Option JobConfig)
  cfg : JobConfig
  fs : RemoteFS
deriving DecidableEq

/-- Tail of cleanup_job after the optional cancellation: the second
confirmation prompt (only when check is set), then rm -r of the job
directory and, only if that succeeded, the directory reference is cleared.
A None job_dir makes the string concatenation raise TypeError. -/
def cleanupRest (env : Transport) (fs : RemoteFS) (cfg : JobConfig)
    (check : Bool) (choice2 : String) : CleanupResult :=
  if check ∧ pyLower choice2 ≠ "yes" then ⟨.ok none, cfg, fs⟩
  else
    match cfg.job_dir with
    | none => ⟨.error (.typeError "can only concatenate str to str"), cfg, fs⟩
    | some d =>
      match execute_command env ("rm -r " ++ d) with
      | .error e => ⟨.error (.commandFailure e), cfg, fs⟩
      | .ok _ =>
        let cfg1 := { cfg with job_dir := none }
        ⟨.ok (some cfg1), cfg1, fs⟩

/-- Embedding of TACCJobManager.cleanup_job (lines 565-586).  The guard
requires setup_ts set.  With check set and the job submitted, the user is
prompted and, on yes, cancel_job is called with no try around it: an error
raised by the cancellation propagates and aborts the cleanup.  With check
unset no cancellation is attempted at all.  choice1 and choice2 are the
interactive answers. -/
def cleanup_job (env : Transport) (fs : RemoteFS) (now : String)
    (cfg : JobConfig) (check : Bool) (choice1 choice2 : String)
    (w : WriteOutcome) : CleanupResult :=
  if cfg.ts.setup_ts ≠ none then
    if check ∧ cfg.ts.submit_ts ≠ none then
      if pyLower choice1 ≠ "yes" then ⟨.ok none, cfg, fs⟩
      else
        let r := cancel_job env fs now cfg w
        match r.outcome with
        | .error e => ⟨.error e, r.cfg, r.fs⟩
        | .ok _ => cleanupRest env r.fs r.cfg check choice2
    else cleanupRest env fs cfg check choice2
  else
    ⟨.error (.validation "No job to cleanup. Job has not been initialized."), cfg, fs⟩

/-- The remote interactions of setup_job, one oracle per interaction, in
program order: mkdir of the job directory, cp -r of the app assets, the
listing consulted for setup.sh (with its chmod and run), the cat of the
app wrapper template, the upload of each staged input (keyed by its source
path), the two sftp script writes, the chmod of the two scripts (one oracle
for the pair: the first failure is what the except clause sees) and the
final sftp write of the job config done by save_job. -/
structure SetupEnv where
  mkdirJob : Except String String
  copyApp : Except String String
  jobFiles : List String
  chmodSetup : Except String String
  runSetup : Except String String
  wrapper : Except String String
  inputSend : String → Except String String
  openSubmitWrite : Except String String
  openWrapperWrite : Except String String
  chmodScripts : Except String String
  saveWrite : Except String String

/-- Result of setup_job: the outcome, the record after the call, and
whether the compensating rm -rf of the job directory was executed. -/
structure SetupResult where
  outcome : Except PyError JobConfig
  cfg : JobConfig
  dirRemoved : Bool
deriving DecidableEq

/-- The input staging loop of setup_job: uploads each declared input in
order, stopping at the first failure. -/
def stageInputs (env : SetupEnv) : List (String × String) → Except String Unit
  | [] => .ok ()
  | (_, path) :: rest =>
    match env.inputSend path with
    | .error e => .error e
    | .ok _ => stageInputs env rest

/-- Final step of setup_job (lines 508-517): save_job stamps dump_ts on the
record (mutating it) before the write can fail; a failing save triggers the
compensating cleanup and re-raises the original error. -/
def setupSave (env : SetupEnv) (now : String) (cfg : JobConfig)
    (removed : Bool) : SetupResult :=
  let cfg1 := stampDump cfg now
  match env.saveWrite with
  | .error e => ⟨.error (.ioError e), cfg1, true⟩
  | .ok _ => ⟨.ok cfg1, cfg1, removed⟩

/-- Steps of setup_job after the wrapper fetch (lines 454-517).  A failing
input upload runs the cleanup and then, while building the message, indexes
the argument name (a string) with a string: Python raises TypeError inside
the except clause.  The sftp script writes are not wrapped: their errors
propagate with no cleanup.  The second write evaluates the expression
containing wrapper_script: when the wrapper fetch had failed that name was
never bound (its except clause did not raise), so Python raises NameError
here.  A failing chmod of the scripts runs the cleanup but its except
clause builds Exception(msg) without raising it, so control continues to
the save. -/
def setupTail (env : SetupEnv) (now : String) (cfg : JobConfig)
    (wrapperScript : Option String) (removed : Bool) : SetupResult :=
  match stageInputs env cfg.inputs with
  | .error _ => ⟨.error (.typeError "string indices must be integers"), cfg, true⟩
  | .ok _ =>
  match env.openSubmitWrite with
  | .error e => ⟨.error (.ioError e), cfg, removed⟩
  | .ok _ =>
  match env.openWrapperWrite with
  | .error e => ⟨.error (.ioError e), cfg, removed⟩
  | .ok _ =>
  match wrapperScript with
  | none => ⟨.error (.nameError "wrapper_script"), cfg, removed⟩
  | some _ =>
  match env.chmodScripts with
  | .error _ => setupSave env now cfg true
  | .ok _ => setupSave env now cfg removed

/-- The record as mutated by the early lines of setup_job: fresh ts block
with setup_ts stamped, job_id derived from the name and the timestamp, and
job_dir placed under the jobs directory. -/
def setupRecord (jobsDir : String) (now : String) (cfg0 : JobConfig) : JobConfig :=
  { cfg0 with
    ts := ⟨some now, none, none, none, none⟩,
    job_id := cfg0.name ++ "_" ++ now,
    job_dir := some (jobsDir ++ "/" ++ (cfg0.name ++ "_" ++ now)) }

/-- Embedding of TACCJobManager.setup_job (lines 330-517), with the script
texts abstracted away (no claim mentions their contents).  The ts block is
created fresh with setup_ts stamped, the job identity is the job name plus
the timestamp, and the job directory is created under the jobs directory.
The cp -r of the app assets and the optional setup.sh handling are not
wrapped in any try: their errors propagate with no compensating cleanup.
The wrapper fetch is wrapped, and its except clause runs the cleanup but
then builds Exception(msg) WITHOUT raising it, so execution continues with
wrapper_script unbound. -/
def setup_job (env : SetupEnv) (jobsDir : String) (now : String)
    (cfg0 : JobConfig) : SetupResult :=
  let cfg := setupRecord jobsDir now cfg0
  match env.mkdirJob with
  | .error e => ⟨.error (.commandFailure e), cfg, false⟩
  | .ok _ =>
  match env.copyApp with
  | .error e => ⟨.error (.commandFailure e), cfg, false⟩
  | .ok _ =>
  match (if "setup.sh" ∈ env.jobFiles then
           match env.chmodSetup with
           | .error e => Except.error e
           | .ok _ => env.runSetup
         else .ok "") with
  | .error e => ⟨.error (.commandFailure e), cfg, false⟩
  | .ok _ =>
  match env.wrapper with
  | .error _ => setupTail env now cfg none true
  | .ok w => setupTail env now cfg (some w) false

/-- Modelled from the spec: the status values of the Command Execution
Protocol of spec section 4.2.  The implementation of that protocol
(TACCSSHClient.process_command and execute_command) is not among the
provided sources; only its unit tests are (tests/test_TACCSSHClient.py). -/
inductive CmdStatus where
  | STARTED
  | RUNNING
  | COMPLETE
  | FAILED
deriving DecidableEq

def CmdStatus.isTerminal : CmdStatus → Bool
  | .COMPLETE => true
  | .FAILED => true
  | _ => false

/-- Modelled from the spec: a tracked command of the Command Registry
(spec section 3), with its accumulated output byte buffers. -/
structure Command where
  status : CmdStatus
  stdout : List Char
  stderr : List Char
deriving DecidableEq

/-- Modelled from the spec: what one poll observes on the command's own
channel (spec section 4.2): nothing ready, some bytes ready on each stream,
the channel closed with the remaining bytes and the exit status, or a
channel-level error while draining. -/
inductive ChanEvent where
  | noData
  | data (out err : List Char)
  | closed (exit : Int) (out err : List Char)
  | chanError (msg : List Char)
deriving DecidableEq

/-- Modelled from the spec: the poll transition of the Command Execution
Protocol (spec section 4.2), whose implementation
(TACCSSHClient.process_command) is not among the provided sources.  A
terminal command is returned unchanged; data is appended to the buffers;
a closed channel is fully drained and classified by exit status; a channel
error makes the command FAILED with the error text captured on stderr. -/
def poll (c : Command) (ev : ChanEvent) : Command :=
  if c.status.isTerminal then c
  else
    match ev with
    | .noData => { c with status := if c.status = .STARTED then .RUNNING else c.status }
    | .data out err =>
        { c with status := .RUNNING, stdout := c.stdout ++ out, stderr := c.stderr ++ err }
    | .closed exit out err =>
        { c with status := if exit = 0 then .COMPLETE else .FAILED,
                 stdout := c.stdout ++ out, stderr := c.stderr ++ err }
    | .chanError msg => { c with status := .FAILED, stderr := c.stderr ++ msg }

/-- A sequence of successive polls of one command. -/
def pollTrace (c : Command) (evs : List ChanEvent) : Command :=
  evs.foldl poll c

/-- One buffer extends another: the later one is the earlier one with some
suffix appended. -/
def BufExt (x y : List Char) : Prop := ∃ t, y = x ++ t

/-! Concrete fixtures used by the counterexamples and witnesses below. -/

/-- A job record right after a successful setup. -/
def cfgSetupDone : JobConfig :=
  { name := "job", appId := "app", job_id := "job_20260101_000000",
    job_dir := some ("JOBS" ++ "/" ++ "job_20260101_000000"),
    ts := ⟨some "20260101_000000", none, none, none, some "20260101_000000"⟩,
    slurm := ⟨none, none⟩, inputs := [], parameters := [] }

/-- The same job after a successful submission. -/
def cfgSubmitted : JobConfig :=
  { cfgSetupDone with
    ts := ⟨some "20260101_000000", some "20260101_000100", none, none,
           some "20260101_000100"⟩,
    slurm := ⟨some "12345", none⟩ }

/-- The jobs directory listing holding the fixture job, no files yet. -/
def fs0 : RemoteFS := ⟨["job_20260101_000000"], []⟩

/-- Transport whose sbatch answer parses to the failure sentinel. -/
def envSentinel : Transport := fun _ => .ok ⟨"FAILED\n", "", 0⟩

/-- Transport on which every exec_command raises. -/
def envDown : Transport := fun _ => .error "SSHException: connection dropped"

/-- Transport whose sbatch answer parses to job identifier 12345. -/
def envOkSubmit : Transport :=
  fun _ => .ok ⟨"-----\nSubmitted batch job 12345\n", "", 0⟩

/-- Transport on which every command succeeds with empty output. -/
def envQuiet : Transport := fun _ => .ok ⟨"", "", 0⟩

/-- A command exiting 0 after writing a warning to stderr. -/
def envWarn : Transport := fun _ => .ok ⟨"build ok\n", "warning: deprecated flag\n", 0⟩

/-- Transport on which only the scancel of job 12345 fails. -/
def envScancelFail : Transport :=
  fun c =>
    if c = "scancel " ++ "12345" then .ok ⟨"", "scancel: error: Invalid job id", 1⟩
    else .ok ⟨"", "", 0⟩

/-- A remote store holding one previously persisted record for job
job_20260101_000000. -/
def fsOld : RemoteFS :=
  ⟨["job_20260101_000000"],
   [("JOBS" ++ "/" ++ "job_20260101_000000" ++ "/job_config.json", .json cfgSetupDone)]⟩

/-- A fresh job description as read from job.json, before setup. -/
def cfgJob0 : JobConfig :=
  { name := "job", appId := "app", job_id := "", job_dir := none,
    ts := ⟨none, none, none, none, none⟩, slurm := ⟨none, none⟩,
    inputs := [], parameters := [] }

/-- Setup interactions that all succeed. -/
def envSetupOk : SetupEnv :=
  { mkdirJob := .ok "", copyApp := .ok "", jobFiles := [],
    chmodSetup := .ok "", runSetup := .ok "",
    wrapper := .ok "wrapper body", inputSend := fun _ => .ok "",
    openSubmitWrite := .ok "", openWrapperWrite := .ok "",
    chmodScripts := .ok "", saveWrite := .ok "" }

/-- Setup run on which the wrapper fetch fails; the job directory having
then been removed, the first sftp script write fails too. -/
def envWrapFail : SetupEnv :=
  { envSetupOk with
    wrapper := .error "App main entry point not found",
    openSubmitWrite := .error "No such file or directory" }

/-- Setup run on which the copy of the app assets fails. -/
def envCopyFail : SetupEnv :=
  { envSetupOk with copyApp := .error "cp: cannot stat" }

/-- Setup run on which the chmod of the generated scripts fails; the job
directory having then been removed, the final config write fails too. -/
def envChmodFail : SetupEnv :=
  { envSetupOk with
    chmodScripts := .error "chmod: cannot access",
    saveWrite := .error "No such file or directory" }

/-! Helper lemmas shared by the claim theorems. -/

theorem strLenPosOfNe (s : String) (h : s ≠ "") : 0 < s.length := by
  cases s with
  | mk data =>
    cases data with
    | nil => exact absurd rfl h
    | cons a l => simp [String.length]

theorem save_job_cfg (fs : RemoteFS) (cfg : JobConfig) (now : String)
    (w : WriteOutcome) : (save_job fs cfg now w).cfg = stampDump cfg now := by
  unfold save_job
  cases hd : (stampDump cfg now).job_dir <;> cases w <;> simp [hd]

theorem bufExt_rfl (x : List Char) : BufExt x x := ⟨[], by simp⟩

theorem poll_bufExt (c : Command) (ev : ChanEvent) :
    BufExt c.stdout (poll c ev).stdout ∧ BufExt c.stderr (poll c ev).stderr := by
  unfold poll
  by_cases h : c.status.isTerminal = true
  · simp [h]; exact ⟨bufExt_rfl _, bufExt_rfl _⟩
  · cases ev <;> simp [h] <;>
      exact ⟨by first | exact bufExt_rfl _ | exact ⟨_, rfl⟩,
             by first | exact bufExt_rfl _ | exact ⟨_, rfl⟩⟩

theorem bufExt_trans {x y z : List Char} (h1 : BufExt x y) (h2 : BufExt y z) :
    BufExt x z := by
  obtain ⟨t1, rfl⟩ := h1
  obtain ⟨t2, rfl⟩ := h2
  exact ⟨t1 ++ t2, by simp⟩

theorem pollTrace_bufExt (evs : List ChanEvent) (c : Command) :
    BufExt c.stdout (pollTrace c evs).stdout ∧
    BufExt c.stderr (pollTrace c evs).stderr := by
  induction evs generalizing c with
  | nil => exact ⟨bufExt_rfl _, bufExt_rfl _⟩
  | cons ev rest ih =>
    have h1 := poll_bufExt c ev
    have h2 := ih (poll c ev)
    exact ⟨bufExt_trans h1.1 h2.1, bufExt_trans h1.2 h2.2⟩

theorem cancel_job_inv (env : Transport) (fs : RemoteFS) (now : String)
    (cfg : JobConfig) (w : WriteOutcome) (h : recInv cfg) :
    recInv (cancel_job env fs now cfg w).cfg := by
  unfold cancel_job
  split
  · cases hsl : cfg.slurm.slurm_id with
    | none => simpa using h
    | some sid =>
      simp only [hsl]
      cases hex : execute_command env ("scancel " ++ sid) with
      | error e => simpa using h
      | ok ret =>
        simp only []
        cases hout : (save_job fs { cfg with
            slurm := { cfg.slurm with slurm_id := none },
            ts := ⟨none, none, none, none, none⟩ } now w).outcome <;>
          simp [hout, save_job_cfg, recInv, stampDump]
  · simpa using h

theorem cancel_job_ok_clears (env : Transport) (fs : RemoteFS) (now : String)
    (cfg : JobConfig) (w : WriteOutcome) (c : JobConfig)
    (h : (cancel_job env fs now cfg w).outcome = .ok c) :
    c.ts.setup_ts = none ∧ c.ts.submit_ts = none ∧ c.ts.start_ts = none ∧
    c.ts.end_ts = none ∧ c.slurm.slurm_id = none := by
  simp only [cancel_job] at h
  split at h
  · split at h
    · simp at h
    · split at h
      · simp at h
      · split at h
        · simp at h
        · simp only [Except.ok.injEq] at h
          subst h
          simp [save_job_cfg, stampDump]
  · simp at h

theorem cancel_job_exec_fail (env : Transport) (fs : RemoteFS) (now : String)
    (cfg : JobConfig) (w : WriteOutcome) (sid e : String)
    (h2 : cfg.ts.submit_ts ≠ none) (hs : cfg.slurm.slurm_id = some sid)
    (he : execute_command env ("scancel " ++ sid) = .error e) :
    cancel_job env fs now cfg w = ⟨.error (.commandFailure e), cfg, fs⟩ := by
  simp [cancel_job, h2, hs, he]

theorem submit_job_guard_fail (env : Transport) (fs : RemoteFS) (now : String)
    (cfg : JobConfig) (w : WriteOutcome)
    (h : ¬(cfg.ts.setup_ts ≠ none ∧ cfg.ts.submit_ts = none)) :
    submit_job env fs now cfg w
      = ⟨.error (.validation "Job has not been initialized or has already been submitted."),
         cfg, fs⟩ := by
  unfold submit_job
  rw [if_neg h]

theorem submit_job_exec_fail (env : Transport) (fs : RemoteFS) (now : String)
    (cfg : JobConfig) (w : WriteOutcome) (e : String)
    (h1 : cfg.ts.setup_ts ≠ none) (h2 : cfg.ts.submit_ts = none)
    (he : execute_command env (submitCmd cfg) = .error e) :
    submit_job env fs now cfg w = ⟨.error (.unboundLocal "ret"), cfg, fs⟩ := by
  unfold submit_job
  rw [if_pos ⟨h1, h2⟩, he]

theorem submit_job_sentinel (env : Transport) (fs : RemoteFS) (now : String)
    (cfg : JobConfig) (w : WriteOutcome) (ret sid : String)
    (h1 : cfg.ts.setup_ts ≠ none) (h2 : cfg.ts.submit_ts = none)
    (hex : execute_command env (submitCmd cfg) = .ok ret)
    (hp : parseSlurmId ret = some sid) (hs : sid = "FAILED" ∨ sid = "") :
    submit_job env fs now cfg w
      = ⟨.error (.commandFailure "Failed to submit SLURM Job!"),
         { cfg with slurm := ⟨some sid, some ret⟩ }, fs⟩ := by
  simp only [submit_job, if_pos (And.intro h1 h2), hex, hp, if_pos hs]

theorem submit_job_ok_inv (env : Transport) (fs : RemoteFS) (now : String)
    (cfg : JobConfig) (w : WriteOutcome) (c : JobConfig)
    (h : (submit_job env fs now cfg w).outcome = .ok c) : recInv c := by
  simp only [submit_job] at h
  by_cases hg : cfg.ts.setup_ts ≠ none ∧ cfg.ts.submit_ts = none
  · rw [if_pos hg] at h
    split at h
    · simp at h
    · split at h
      · simp at h
      · split at h
        · simp at h
        · split at h
          · simp at h
          · simp only [Except.ok.injEq] at h
            subst h
            refine ⟨fun _ => ?_, ?_⟩ <;> simp [save_job_cfg, stampDump]
            exact hg.1
  · rw [if_neg hg] at h; simp at h

theorem setupSave_cfg (env : SetupEnv) (now : String) (cfg : JobConfig)
    (r : Bool) : (setupSave env now cfg r).cfg = stampDump cfg now := by
  unfold setupSave
  split <;> rfl

theorem setupTail_cfg (env : SetupEnv) (now : String) (cfg : JobConfig)
    (ws : Option String) (r : Bool) :
    (setupTail env now cfg ws r).cfg = cfg ∨
    (setupTail env now cfg ws r).cfg = stampDump cfg now := by
  unfold setupTail
  split
  · exact Or.inl rfl
  · split
    · exact Or.inl rfl
    · split
      · exact Or.inl rfl
      · split
        · exact Or.inl rfl
        · split
          · exact Or.inr (setupSave_cfg _ _ _ _)
          · exact Or.inr (setupSave_cfg _ _ _ _)

theorem setup_job_cfg (env : SetupEnv) (jobsDir now : String) (cfg0 : JobConfig) :
    (setup_job env jobsDir now cfg0).cfg = setupRecord jobsDir now cfg0 ∨
    (setup_job env jobsDir now cfg0).cfg
      = stampDump (setupRecord jobsDir now cfg0) now := by
  unfold setup_job
  split
  · exact Or.inl rfl
  · split
    · exact Or.inl rfl
    · split
      · exact Or.inl rfl
      · split
        · exact setupTail_cfg _ _ _ _ _
        · exact setupTail_cfg _ _ _ _ _

theorem setup_job_inv (env : SetupEnv) (jobsDir now : String) (cfg0 : JobConfig)
    (h : cfg0.slurm.slurm_id = none) :
    recInv (setup_job env jobsDir now cfg0).cfg := by
  rcases setup_job_cfg env jobsDir now cfg0 with hc | hc <;> rw [hc] <;>
    simp [recInv, setupRecord, stampDump, h]

theorem recInv_jobdir (cfg : JobConfig) (x : Option String) (h : recInv cfg) :
    recInv { cfg with job_dir := x } := h

theorem cleanupRest_cfg (env : Transport) (fs : RemoteFS) (cfg : JobConfig)
    (check : Bool) (c2 : String) :
    (cleanupRest env fs cfg check c2).cfg = cfg ∨
    (cleanupRest env fs cfg check c2).cfg = { cfg with job_dir := none } := by
  unfold cleanupRest
  split
  · exact Or.inl rfl
  · split
    · exact Or.inl rfl
    · split
      · exact Or.inl rfl
      · exact Or.inr rfl

theorem cleanup_job_inv (env : Transport) (fs : RemoteFS) (now : String)
    (cfg : JobConfig) (check : Bool) (c1 c2 : String) (w : WriteOutcome)
    (h : recInv cfg) :
    recInv (cleanup_job env fs now cfg check c1 c2 w).cfg := by
  simp only [cleanup_job]
  split
  · split
    · split
      · exact h
      · split
        · exact cancel_job_inv env fs now cfg w h
        · have h2 := cancel_job_inv env fs now cfg w h
          rcases cleanupRest_cfg env (cancel_job env fs now cfg w).fs
              (cancel_job env fs now cfg w).cfg check c2 with hc | hc <;> rw [hc]
          · exact h2
          · exact recInv_jobdir _ _ h2
    · rcases cleanupRest_cfg env fs cfg check c2 with hc | hc <;> rw [hc]
      · exact h
      · exact recInv_jobdir _ _ h
  · exact h

/-! The claim theorems. -/

/-- C1, counterexample.  The claim says a command finishing with exit
status 0 does not raise even when stderr is non-empty.  On the transport
envWarn the command answers with exit status 0, non-empty stderr and some
stdout, and execute_command raises with the stderr text. -/
theorem c1_stderr_counterexample :
    envWarn "make" = .ok ⟨"build ok\n", "warning: deprecated flag\n", 0⟩ ∧
    execute_command envWarn "make" = .error "warning: deprecated flag\n" := by
  constructor
  · rfl
  · decide

/-- C1, amended.  What _execute_command actually does: for a command the
transport answers (no transport exception), the call raises exactly when
the accumulated stderr is non-empty, regardless of the exit status (which
is never consulted); with empty stderr it returns stdout, again regardless
of the exit status. -/
theorem c1_stderr_classification (env : Transport) (cmnd : String)
    (r : CmdOutput) (h : env cmnd = .ok r) :
    (r.err = "" → execute_command env cmnd = .ok r.out) ∧
    (r.err ≠ "" → execute_command env cmnd = .error r.err) := by
  unfold execute_command
  rw [h]
  constructor
  · intro he
    simp [he, String.length]
  · intro he
    simp [strLenPosOfNe r.err he]

/-- C1, witness for the amended theorem at a concrete quiet command and a
concrete command with a non-zero exit status and empty stderr. -/
theorem c1_stderr_classification_witness :
    execute_command envQuiet "pwd" = .ok "" :=
  (c1_stderr_classification envQuiet "pwd" ⟨"", "", 0⟩ rfl).1 rfl

/-- C2, confirmed.  For a record that has been set up (its job_dir is the
jobs directory plus its job identity, and the identity is listed in the
jobs directory), save_job followed by load_job_config on the same identity
returns exactly the record passed to save with its ts.dump_ts stamped, and
that record agrees with the original on every field except dump_ts. -/
theorem c2_save_load_roundtrip (jobsDir : String) (fs : RemoteFS)
    (cfg : JobConfig) (now : String)
    (hdir : cfg.job_dir = some (jobsDir ++ "/" ++ cfg.job_id))
    (hjob : cfg.job_id ∈ fs.jobs) :
    load_job_config jobsDir (save_job fs cfg now .complete).fs cfg.job_id
      = .ok (stampDump cfg now) ∧
    sameExceptDump cfg (stampDump cfg now) := by
  constructor
  · have hd1 : (stampDump cfg now).job_dir = some (jobsDir ++ "/" ++ cfg.job_id) := hdir
    simp only [save_job, hd1]
    simp only [load_job_config, fsWrite, fsRead, lookupStr]
    simp [hjob]
  · unfold sameExceptDump stampDump
    simp

/-- C2, witness at the concrete fixture record and store. -/
theorem c2_save_load_roundtrip_witness :
    load_job_config "JOBS" (save_job fs0 cfgSetupDone "t1" .complete).fs
      cfgSetupDone.job_id = .ok (stampDump cfgSetupDone "t1") ∧
    sameExceptDump cfgSetupDone (stampDump cfgSetupDone "t1") :=
  c2_save_load_roundtrip "JOBS" fs0 cfgSetupDone "t1" (by decide) (by decide)

/-- C6, confirmed (the implementation of the poll machinery is not among
the sources; the transition of spec section 4.2 is modelled above).  Over
any sequence of polls, the buffers returned by a later poll extend those
returned by any earlier poll: whatever events follow, the accumulated
stdout and stderr only ever grow by appending. -/
theorem c6_poll_monotone (c : Command) (evs1 evs2 : List ChanEvent) :
    BufExt (pollTrace c evs1).stdout (pollTrace c (evs1 ++ evs2)).stdout ∧
    BufExt (pollTrace c evs1).stderr (pollTrace c (evs1 ++ evs2)).stderr := by
  unfold pollTrace
  rw [List.foldl_append]
  exact pollTrace_bufExt evs2 (pollTrace c evs1)

/-- C3, counterexample.  The claim says every lifecycle operation preserves
the record invariant, succeeding or failing, and that after a failed submit
no scheduler identifier is present.  On the fixture record (which satisfies
the invariant) a submit against a scheduler answering the FAILED sentinel
raises, yet stores the sentinel in slurm_id while submit_ts stays null, so
the resulting record violates the invariant. -/
theorem c3_invariant_counterexample :
    recInv cfgSetupDone ∧
    (submit_job envSentinel fs0 "t1" cfgSetupDone .complete).outcome
      = .error (.commandFailure "Failed to submit SLURM Job!") ∧
    (submit_job envSentinel fs0 "t1" cfgSetupDone .complete).cfg.ts.submit_ts
      = none ∧
    ¬ recInv (submit_job envSentinel fs0 "t1" cfgSetupDone .complete).cfg := by
  refine ⟨by decide, by decide, by decide, by decide⟩

/-- C3, amended.  Setup (on a description carrying no scheduler id), cancel
(on every path, success or failure), cleanup (on every path) and submit on
its guard-failure, transport-failure and success paths all preserve the
record invariant, and a successful cancel leaves all four timestamps null
with no scheduler identifier; but a submit on which the scheduler answers
the failure sentinel (or an empty identifier) raises with the sentinel
stored in slurm_id while submit_ts stays null, violating the identifier
half of the invariant until the record is repaired. -/
theorem c3_invariant_amended (env : Transport) (fs : RemoteFS) (now : String)
    (w : WriteOutcome) (cfg : JobConfig) :
    (recInv cfg → recInv (cancel_job env fs now cfg w).cfg) ∧
    (∀ c, (cancel_job env fs now cfg w).outcome = .ok c →
      c.ts.setup_ts = none ∧ c.ts.submit_ts = none ∧ c.ts.start_ts = none ∧
      c.ts.end_ts = none ∧ c.slurm.slurm_id = none) ∧
    (¬(cfg.ts.setup_ts ≠ none ∧ cfg.ts.submit_ts = none) →
      (submit_job env fs now cfg w).cfg = cfg) ∧
    (∀ e, cfg.ts.setup_ts ≠ none → cfg.ts.submit_ts = none →
      execute_command env (submitCmd cfg) = .error e →
      (submit_job env fs now cfg w).cfg = cfg) ∧
    (∀ c, (submit_job env fs now cfg w).outcome = .ok c → recInv c) ∧
    (∀ ret sid, cfg.ts.setup_ts ≠ none → cfg.ts.submit_ts = none →
      execute_command env (submitCmd cfg) = .ok ret →
      parseSlurmId ret = some sid → (sid = "FAILED" ∨ sid = "") →
      (submit_job env fs now cfg w).outcome
        = .error (.commandFailure "Failed to submit SLURM Job!") ∧
      (submit_job env fs now cfg w).cfg.ts.submit_ts = none ∧
      (submit_job env fs now cfg w).cfg.slurm.slurm_id = some sid) ∧
    (∀ senv jobsDir, cfg.slurm.slurm_id = none →
      recInv (setup_job senv jobsDir now cfg).cfg) ∧
    (∀ check c1 c2, recInv cfg →
      recInv (cleanup_job env fs now cfg check c1 c2 w).cfg) := by
  refine ⟨cancel_job_inv env fs now cfg w,
    cancel_job_ok_clears env fs now cfg w,
    fun hg => by rw [submit_job_guard_fail env fs now cfg w hg],
    fun e h1 h2 he => by rw [submit_job_exec_fail env fs now cfg w e h1 h2 he],
    submit_job_ok_inv env fs now cfg w,
    fun ret sid h1 h2 hex hp hs => ?_,
    fun senv jobsDir hid => setup_job_inv senv jobsDir now cfg hid,
    fun check c1 c2 h => cleanup_job_inv env fs now cfg check c1 c2 w h⟩
  rw [submit_job_sentinel env fs now cfg w ret sid h1 h2 hex hp hs]
  exact ⟨rfl, h2, rfl⟩

/-- C3, witness applying the amended theorem at concrete records: a cancel
of the submitted fixture keeps the invariant, and a second submit on it
leaves the record untouched. -/
theorem c3_invariant_amended_witness :
    recInv (cancel_job envQuiet fs0 "t2" cfgSubmitted .complete).cfg ∧
    (submit_job envQuiet fs0 "t2" cfgSubmitted .complete).cfg = cfgSubmitted :=
  ⟨(c3_invariant_amended envQuiet fs0 "t2" .complete cfgSubmitted).1 (by decide),
   (c3_invariant_amended envQuiet fs0 "t2" .complete cfgSubmitted).2.2.1 (by decide)⟩

/-- C4, confirmed.  On a record whose submit_ts is already set, submit_job
raises the invalid-state-transition error (the spec taxonomy names it
ValidationError; the source raises its generic guard exception) and returns
with the record and the remote store untouched, for every transport
environment: no scheduler command is issued and the stored scheduler
identifier stays intact. -/
theorem c4_double_submit_guard (env : Transport) (fs : RemoteFS)
    (now : String) (w : WriteOutcome) (cfg : JobConfig) (t : String)
    (h : cfg.ts.submit_ts = some t) :
    submit_job env fs now cfg w
      = ⟨.error (.validation "Job has not been initialized or has already been submitted."),
         cfg, fs⟩ := by
  apply submit_job_guard_fail
  simp [h]

/-- C4, witness at the submitted fixture record. -/
theorem c4_double_submit_guard_witness :
    submit_job envOkSubmit fs0 "t2" cfgSubmitted .complete
      = ⟨.error (.validation "Job has not been initialized or has already been submitted."),
         cfgSubmitted, fs0⟩ :=
  c4_double_submit_guard envOkSubmit fs0 "t2" .complete cfgSubmitted
    "20260101_000100" rfl

/-- C5, confirmed.  On a record whose submit_ts is null, cancel_job raises
the invalid-state-transition error (ValidationError in the spec taxonomy)
and returns with the record and the remote store untouched, for every
transport environment: no scancel is issued and nothing is persisted. -/
theorem c5_cancel_guard (env : Transport) (fs : RemoteFS) (now : String)
    (w : WriteOutcome) (cfg : JobConfig) (h : cfg.ts.submit_ts = none) :
    cancel_job env fs now cfg w
      = ⟨.error (.validation "Job has not been submitted yet."), cfg, fs⟩ := by
  unfold cancel_job
  rw [if_neg (by simp [h])]

/-- C5, witness at the set-up but unsubmitted fixture record. -/
theorem c5_cancel_guard_witness :
    cancel_job envQuiet fs0 "t2" cfgSetupDone .complete
      = ⟨.error (.validation "Job has not been submitted yet."), cfgSetupDone, fs0⟩ :=
  c5_cancel_guard envQuiet fs0 "t2" .complete cfgSetupDone rfl

/-- C7, code bug, evaluated at three failing runs of setup_job.  When the
wrapper fetch fails, the job directory is removed but the original error is
swallowed (the except clause builds Exception(msg) without raising it) and
setup continues until the sftp script write fails with an unrelated error.
When the copy of the app assets fails, the error propagates but no
compensating cleanup runs at all.  When the chmod of the generated scripts
fails, the directory is removed, the error is again swallowed, and the
final config write fails with an unrelated error.  In no case is the
original error re-raised together with the cleanup, contrary to the
claim. -/
theorem c7_setup_failure_behavior :
    (setup_job envWrapFail "JOBS" "t0" cfgJob0).dirRemoved = true ∧
    (setup_job envWrapFail "JOBS" "t0" cfgJob0).outcome
      = .error (.ioError "No such file or directory") ∧
    (setup_job envCopyFail "JOBS" "t0" cfgJob0).dirRemoved = false ∧
    (setup_job envCopyFail "JOBS" "t0" cfgJob0).outcome
      = .error (.commandFailure "cp: cannot stat") ∧
    (setup_job envChmodFail "JOBS" "t0" cfgJob0).dirRemoved = true ∧
    (setup_job envChmodFail "JOBS" "t0" cfgJob0).outcome
      = .error (.ioError "No such file or directory") := by
  refine ⟨by decide, by decide, by decide, by decide, by decide, by decide⟩

/-- C8, counterexample.  The claim says a save whose write fails part way
does not corrupt the previously persisted record.  On the store fsOld,
which holds a valid record for the fixture identity, an interrupted save
raises and a subsequent load of that identity fails on corrupt content
instead of returning the old record: save_job opens the final destination
directly, so the interrupted write destroyed it. -/
theorem c8_atomicity_counterexample :
    load_job_config "JOBS" fsOld "job_20260101_000000" = .ok cfgSetupDone ∧
    (save_job fsOld cfgSetupDone "t9" .interrupted).outcome
      = .error (.ioError "connection lost during write") ∧
    load_job_config "JOBS" (save_job fsOld cfgSetupDone "t9" .interrupted).fs
      "job_20260101_000000" = .error (.ioError "json decode error") := by
  refine ⟨by decide, by decide, by decide⟩

/-- C8, amended.  save_job stamps ts.dump_ts with the current time,
serialises and writes the record directly to job_dir/job_config.json, with
no temporary path and no rename: a completed write persists the stamped
record, and an interrupted write raises and leaves corrupt content at that
same destination, replacing whatever record was there before. -/
theorem c8_save_direct_write (fs : RemoteFS) (cfg : JobConfig)
    (now d : String) (h : cfg.job_dir = some d) :
    save_job fs cfg now .complete
      = ⟨.ok (), fsWrite fs (d ++ "/job_config.json") (.json (stampDump cfg now)),
         stampDump cfg now⟩ ∧
    save_job fs cfg now .interrupted
      = ⟨.error (.ioError "connection lost during write"),
         fsWrite fs (d ++ "/job_config.json") .corrupt, stampDump cfg now⟩ := by
  have h1 : (stampDump cfg now).job_dir = some d := h
  constructor <;> simp [save_job, h1]

/-- C8, witness for the amended theorem at the fixture record and store. -/
theorem c8_save_direct_write_witness :
    save_job fs0 cfgSetupDone "t1" .complete
      = ⟨.ok (), fsWrite fs0 ("JOBS" ++ "/" ++ "job_20260101_000000" ++ "/job_config.json")
           (.json (stampDump cfgSetupDone "t1")), stampDump cfgSetupDone "t1"⟩ :=
  (c8_save_direct_write fs0 cfgSetupDone "t1"
    ("JOBS" ++ "/" ++ "job_20260101_000000") (by decide)).1

/-- C9, code bug, evaluated at the two failure modes of submit_job.  When
the sbatch command itself raises, the except clause builds Exception(msg)
without raising it and control falls through to the use of the unassigned
ret, so Python raises UnboundLocalError instead of the CommandFailure the
claim names, with the record untouched (submit_ts null, job resubmittable).
When the scheduler answers the FAILED sentinel, the intended error is
raised and submit_ts stays null as claimed, though the sentinel is left
stored in slurm_id. -/
theorem c9_submit_failure_behavior :
    submit_job envDown fs0 "t1" cfgSetupDone .complete
      = ⟨.error (.unboundLocal "ret"), cfgSetupDone, fs0⟩ ∧
    (submit_job envSentinel fs0 "t1" cfgSetupDone .complete).outcome
      = .error (.commandFailure "Failed to submit SLURM Job!") ∧
    (submit_job envSentinel fs0 "t1" cfgSetupDone .complete).cfg.ts.submit_ts
      = none ∧
    (submit_job envSentinel fs0 "t1" cfgSetupDone .complete).cfg.ts.setup_ts
      = some "20260101_000000" := by
  refine ⟨by decide, by decide, by decide, by decide⟩

/-- C10, counterexample.  The claim says the compensating cancel inside
cleanup is best-effort: its failure still lets cleanup remove the working
directory and blank the directory reference.  On the submitted fixture,
with a transport on which only the scancel fails, cleanup_job propagates
the cancel error and returns with the record (job_dir included) and the
remote store untouched: the rm of the directory is never reached. -/
theorem c10_cleanup_counterexample :
    cleanup_job envScancelFail fs0 "t2" cfgSubmitted true "yes" "yes" .complete
      = ⟨.error (.commandFailure "scancel: error: Invalid job id"),
         cfgSubmitted, fs0⟩ ∧
    cfgSubmitted.job_dir = some ("JOBS" ++ "/" ++ "job_20260101_000000") := by
  refine ⟨by decide, by decide⟩

/-- C10, amended.  Cleanup attempts the scheduler cancel only when invoked
interactively (check set) on an active job and confirmed; a failure of that
cancel propagates and aborts cleanup, leaving the record, its directory
reference and the remote store untouched.  With check unset no cancel is
attempted at all and cleanup proceeds directly: a successful rm removes the
directory and blanks the directory reference. -/
theorem c10_cleanup_amended (env : Transport) (fs : RemoteFS) (now : String)
    (cfg : JobConfig) (w : WriteOutcome) (c1 c2 : String) :
    (∀ sid e, cfg.ts.setup_ts ≠ none → cfg.ts.submit_ts ≠ none →
      pyLower c1 = "yes" → cfg.slurm.slurm_id = some sid →
      execute_command env ("scancel " ++ sid) = .error e →
      cleanup_job env fs now cfg true c1 c2 w
        = ⟨.error (.commandFailure e), cfg, fs⟩) ∧
    (∀ d ret, cfg.ts.setup_ts ≠ none → cfg.job_dir = some d →
      execute_command env ("rm -r " ++ d) = .ok ret →
      cleanup_job env fs now cfg false c1 c2 w
        = ⟨.ok (some { cfg with job_dir := none }),
           { cfg with job_dir := none }, fs⟩) := by
  constructor
  · intro sid e h1 h2 h3 hs he
    simp [cleanup_job, h1, h2, h3,
      cancel_job_exec_fail env fs now cfg w sid e h2 hs he]
  · intro d ret h1 hd he
    simp [cleanup_job, cleanupRest, h1, hd, he]

/-- C10, witness applying the amended theorem at the fixtures: the aborted
interactive cleanup of the submitted job, and the non-interactive cleanup
of the unsubmitted one. -/
theorem c10_cleanup_amended_witness :
    cleanup_job envScancelFail fs0 "t2" cfgSubmitted true "yes" "yes" .complete
      = ⟨.error (.commandFailure "scancel: error: Invalid job id"),
         cfgSubmitted, fs0⟩ ∧
    cleanup_job envQuiet fs0 "t2" cfgSetupDone false "yes" "yes" .complete
      = ⟨.ok (some { cfgSetupDone with job_dir := none }),
         { cfgSetupDone with job_dir := none }, fs0⟩ :=
  ⟨(c10_cleanup_amended envScancelFail fs0 "t2" cfgSubmitted .complete "yes" "yes").1
      "12345" "scancel: error: Invalid job id"
      (by decide) (by decide) (by decide) (by decide) (by decide),
   (c10_cleanup_amended envQuiet fs0 "t2" cfgSetupDone .complete "yes" "yes").2
      ("JOBS" ++ "/" ++ "job_20260101_000000") ""
      (by decide) (by decide) (by decide)⟩

end Taccjm
